import Mathlib

/-!
Verification development for the card-pulling pipeline of `ldc-shop`
(`src/_workers_next/src/lib/card-api.ts`).

The TypeScript module is shallowly embedded here:
pure helpers (`keyOf`, `extractCardKey`, `isUniqueConstraintError`) become
Lean functions; the external collaborators (settings table, WHATWG URL
parser, HTTP fetch, card insert) become an explicit environment record of
fallible functions (`Except JsError`); the orchestrator
`pullOneCardFromApi` becomes a function of that environment which also
records the fetch / insert calls it performs.
-/

namespace LdcShop

/-- Whitespace characters recognised by JavaScript `String.prototype.trim`
(ECMAScript WhiteSpace and LineTerminator code points). -/
def jsWhitespaceChar (c : Char) : Bool :=
  c == ' ' || c == '\t' || c == '\n' || c == '\r' || c == '\u000b' || c == '\u000c' ||
  c == '\u00a0' || c == '\u1680' || c == '\u2000' || c == '\u2001' || c == '\u2002' ||
  c == '\u2003' || c == '\u2004' || c == '\u2005' || c == '\u2006' || c == '\u2007' ||
  c == '\u2008' || c == '\u2009' || c == '\u200a' || c == '\u2028' || c == '\u2029' ||
  c == '\u202f' || c == '\u205f' || c == '\u3000' || c == '\ufeff'

/-- Remove trailing JS whitespace from a character list. -/
def jsTrimRight : List Char → List Char
  | [] => []
  | c :: rest =>
    let r := jsTrimRight rest
    if r.isEmpty && jsWhitespaceChar c then [] else c :: r

/-- Model of JavaScript `String.prototype.trim`: drop leading and trailing
whitespace. -/
def jsTrim (s : String) : String :=
  String.mk (jsTrimRight (s.data.dropWhile jsWhitespaceChar))

/-- Decoded response payloads: the value space JavaScript sees after
`response.json()` (or a raw text body, which is a string payload). -/
inductive Payload where
  | str (s : String)
  | num (n : Int)
  | bool (b : Bool)
  | null
  | arr (items : List Payload)
  | obj (fields : List (String × Payload))

/-- JavaScript property access `payload?.[k]` on an object literal: the
value bound to the key, if any. -/
def lookupField : List (String × Payload) → String → Option Payload
  | [], _ => none
  | (k, v) :: rest, key => if k = key then some v else lookupField rest key

/-- The direct-key probe of `extractCardKey`: scan the given key names in
order; a key bound to a string with non-empty trim wins and its trimmed
value is returned, otherwise the scan continues.  Mirrors the
`for (const k of directKeys)` loop (card-api.ts lines 35-39). -/
def directLookup : List String → List (String × Payload) → String
  | [], _ => ""
  | k :: ks, fields =>
    match lookupField fields k with
    | some (.str s) => if jsTrim s = "" then directLookup ks fields else jsTrim s
    | _ => directLookup ks fields

mutual

/-- Model of `extractCardKey` (card-api.ts lines 22-49).  The falsy guard
`if (!payload) return ""` is the empty-string / zero / false / null cases;
the nested-key loop over `["data", "result", "item"]` is unrolled. -/
def extractCardKey : Payload → String
  | .str s => if s = "" then "" else jsTrim s
  | .num _ => ""
  | .bool _ => ""
  | .null => ""
  | .arr items => extractFromArr items
  | .obj fields =>
    let direct := directLookup ["cardKey", "card", "key", "code"] fields
    if direct = "" then
      let d := extractFromField "data" fields
      if d = "" then
        let r := extractFromField "result" fields
        if r = "" then extractFromField "item" fields else r
      else d
    else direct

/-- The array loop of `extractCardKey`: first non-empty extraction wins. -/
def extractFromArr : List Payload → String
  | [] => ""
  | p :: rest =>
    let value := extractCardKey p
    if value = "" then extractFromArr rest else value

/-- One nested-key probe of `extractCardKey`: `extractCardKey(payload?.[k])`,
with an absent key extracting to `""` (extraction of `undefined`). -/
def extractFromField (key : String) : List (String × Payload) → String
  | [] => ""
  | (k, v) :: rest => if k = key then extractCardKey v else extractFromField key rest

end

/-- Does `needle` occur at the start of `hay`? (helper for the model of
JavaScript `String.prototype.includes`). -/
def charsStartWith : List Char → List Char → Bool
  | [], _ => true
  | _ :: _, [] => false
  | n :: ns, h :: hs => n == h && charsStartWith ns hs

/-- Does `needle` occur contiguously anywhere in `hay`? -/
def charsContain (needle : List Char) : List Char → Bool
  | [] => needle.isEmpty
  | c :: rest => charsStartWith needle (c :: rest) || charsContain needle rest

/-- Model of JavaScript `hay.includes(needle)`. -/
def strIncludes (hay needle : String) : Bool :=
  charsContain needle.data hay.data

/-- Model of JavaScript `String.prototype.toLowerCase` (character-wise
case folding; ASCII is what the inspected substrings exercise). -/
def jsToLower (s : String) : String :=
  String.mk (s.data.map Char.toLower)

/-- A JavaScript error value as the embedded code observes it: its
`message` property (the empty string standing for a missing/empty message,
which is falsy) and its `JSON.stringify` serialization. -/
structure JsError where
  message : String
  serialized : String
deriving DecidableEq

/-- The lower-cased text inspected by the error heuristics:
`` `${error?.message || ""}${JSON.stringify(error || {})}`.toLowerCase() ``
(card-api.ts lines 52 and 68). -/
def errText (e : JsError) : String :=
  jsToLower (e.message ++ e.serialized)

/-- Model of `isUniqueConstraintError` (card-api.ts lines 51-54). -/
def isUniqueConstraintError (e : JsError) : Bool :=
  strIncludes (errText e) "unique" || strIncludes (errText e) "constraint failed"

/-- Model of `keyOf` (card-api.ts lines 12-14): the namespaced settings key
`` `cards_api_${field}_${productId}` ``. -/
def keyOf (productId : String) (field : String) : String :=
  "cards_api_" ++ field ++ "_" ++ productId

/-- Model of the typed config record `ProductCardApiConfig`. -/
structure ProductCardApiConfig where
  enabled : Bool
  url : String
  token : String
deriving DecidableEq

/-- An HTTP response as the pipeline observes it: status, the
`content-type` header (absent = `null`), and the results of `.json()` and
`.text()` (each of which may itself fail). -/
structure Response where
  status : Nat
  contentType : Option String
  jsonBody : Except JsError Payload
  textBody : Except JsError String

/-- The WHATWG `Response.ok` flag: status in the 2xx range. -/
def responseOk (r : Response) : Bool :=
  decide (200 ≤ r.status ∧ r.status ≤ 299)

/-- The external collaborators of the pipeline, as fallible functions:
the settings-table select, the platform URL parser backing `new URL(...)`,
the HTTP `fetch`, and the cards-table insert.  A `.error e` result models
that call throwing the JavaScript error `e`. -/
structure Env where
  settingsSelect : List String → Except JsError (List (String × Option String))
  urlParse : String → Except JsError String
  fetch : String → List (String × String) → Except JsError Response
  insert : String → String → Except JsError Unit

/-- Model of `resolveApiUrl` (card-api.ts lines 16-20): trim, map the empty
string to itself, otherwise normalize through `new URL(trimmed).toString()`
(the platform parser, which may throw). -/
def resolveApiUrl (env : Env) (rawUrl : String) : Except JsError String :=
  let trimmed := jsTrim rawUrl
  if trimmed = "" then .ok "" else env.urlParse trimmed

/-- The empty settings record. -/
def noSettings : String → Option String := fun _ => none

/-- One `map[row.key] = row.value || ""` assignment. -/
def settingsAssign (m : String → Option String) (k v : String) : String → Option String :=
  fun q => if q = k then some v else m q

/-- Model of `getSettingsUncached` (card-api.ts lines 56-74): select the
rows for the requested keys and fold them into a record, treating a
missing settings table as "no settings" and rethrowing any other select
failure. -/
def getSettingsUncached (env : Env) (keys : List String) :
    Except JsError (String → Option String) :=
  match env.settingsSelect keys with
  | .ok rows =>
    .ok (rows.foldl (fun m row => settingsAssign m row.1 (row.2.getD "")) noSettings)
  | .error e =>
    if strIncludes (errText e) "no such table" && strIncludes (errText e) "settings" then
      .ok noSettings
    else
      .error e

/-- Model of `getProductCardApiConfig` (card-api.ts lines 76-87). -/
def getProductCardApiConfig (env : Env) (productId : String) :
    Except JsError ProductCardApiConfig :=
  let enabledKey := keyOf productId "enabled"
  let urlKey := keyOf productId "url"
  let tokenKey := keyOf productId "token"
  match getSettingsUncached env [enabledKey, urlKey, tokenKey] with
  | .error e => .error e
  | .ok values =>
    .ok
      { enabled := values enabledKey == some "true"
        url := jsTrim ((values urlKey).getD "")
        token := jsTrim ((values tokenKey).getD "") }

/-- A state of the settings store: string values keyed by settings key. -/
def Store : Type := String → Option String

/-- Modelled from the spec: `setSetting` (imported from the repository's
`@/lib/db/queries`, whose source is not in the reviewed tree) writes one
string value under one key in the Settings Store ("A companion
`save(productId, config)` writes the three keys"). -/
def setSetting (store : Store) (key value : String) : Store :=
  fun q => if q = key then some value else store q

/-- Model of `saveProductCardApiConfig` (card-api.ts lines 89-99).  The
three `setSetting` calls run under `Promise.all`; they are modelled in
their listed order (they write three distinct keys, so order is
immaterial). -/
def saveProductCardApiConfig (productId : String) (config : ProductCardApiConfig)
    (store : Store) : Store :=
  let url := jsTrim config.url
  let token := jsTrim config.token
  let enabled := config.enabled
  setSetting
    (setSetting
      (setSetting store (keyOf productId "enabled") (if enabled then "true" else "false"))
      (keyOf productId "url") url)
    (keyOf productId "token") token

/-- A well-behaved settings-table select over a store state: it returns one
row per requested key that is present, in request order. -/
def settingsSelectOf (store : Store) : List String → Except JsError (List (String × Option String)) :=
  fun keys => .ok (keys.filterMap (fun k => (store k).map (fun v => (k, some v))))

/-- An environment whose settings table is backed by the store state. -/
def envWithStore (store : Store) (env : Env) : Env :=
  { env with settingsSelect := settingsSelectOf store }

/-- The outcome record returned by `pullOneCardFromApi` (card-api.ts lines
101-106): `{ok, skipped?, error?, cardKey?}`. -/
structure PullOutcome where
  ok : Bool
  skipped : Option Bool := none
  error : Option String := none
  cardKey : Option String := none
deriving DecidableEq

/-- The observable calls `pullOneCardFromApi` makes to the network and the
cards table, recorded in order. -/
inductive Event where
  | fetchCall (url : String) (headers : List (String × String))
  | insertCall (productId : String) (cardKey : String)
deriving DecidableEq

/-- The request headers built by `pullOneCardFromApi` (card-api.ts lines
122-127): `Accept` always, `Authorization: Bearer <token>` when the token
is non-empty (truthy). -/
def requestHeaders (token : String) : List (String × String) :=
  if token = "" then
    [("Accept", "application/json, text/plain;q=0.9, */*;q=0.8")]
  else
    [("Accept", "application/json, text/plain;q=0.9, */*;q=0.8"),
     ("Authorization", "Bearer " ++ token)]

/-- Body decoding (card-api.ts lines 139-146): `response.json()` when the
lower-cased `content-type` header contains `application/json`, otherwise
`response.text()` taken as a string payload. -/
def decodePayload (r : Response) : Except JsError Payload :=
  let contentType := jsToLower (r.contentType.getD "")
  if strIncludes contentType "application/json" then
    r.jsonBody
  else
    r.textBody.map Payload.str

/-- Model of `pullOneCardFromApi` (card-api.ts lines 101-166), paired with
the list of fetch / insert calls it performed.  A `.error e` first
component models the function throwing `e` (an awaited call threw and no
surrounding `try` caught it). -/
def pullRun (env : Env) (productId : String) :
    Except JsError PullOutcome × List Event :=
  match getProductCardApiConfig env productId with
  | .error e => (.error e, [])
  | .ok config =>
    if config.enabled = false then
      (.ok { ok := false, skipped := some true, error := some "api_disabled" }, [])
    else if config.url = "" then
      (.ok { ok := false, error := some "api_url_missing" }, [])
    else
      match resolveApiUrl env config.url with
      | .error _ => (.ok { ok := false, error := some "api_url_invalid" }, [])
      | .ok requestUrl =>
        let headers := requestHeaders config.token
        match env.fetch requestUrl headers with
        | .error e => (.error e, [.fetchCall requestUrl headers])
        | .ok response =>
          if responseOk response = false then
            (.ok { ok := false, error := some ("api_request_failed_" ++ toString response.status) },
             [.fetchCall requestUrl headers])
          else
            match decodePayload response with
            | .error e => (.error e, [.fetchCall requestUrl headers])
            | .ok payload =>
              let cardKey := extractCardKey payload
              if cardKey = "" then
                (.ok { ok := false, error := some "api_card_missing" },
                 [.fetchCall requestUrl headers])
              else
                match env.insert productId cardKey with
                | .error e =>
                  if isUniqueConstraintError e then
                    (.ok { ok := false, error := some "api_card_duplicate" },
                     [.fetchCall requestUrl headers, .insertCall productId cardKey])
                  else
                    (.ok { ok := false,
                           error := some (if e.message = "" then "api_insert_failed" else e.message) },
                     [.fetchCall requestUrl headers, .insertCall productId cardKey])
                | .ok _ =>
                  (.ok { ok := true, cardKey := some cardKey },
                   [.fetchCall requestUrl headers, .insertCall productId cardKey])

/-- The value `pullOneCardFromApi` returns (or the error it throws),
forgetting the recorded calls. -/
def pullOneCardFromApi (env : Env) (productId : String) : Except JsError PullOutcome :=
  (pullRun env productId).1

deriving instance DecidableEq for Except

/-! ### Properties of the trim model -/

theorem dropWhile_dropWhile_self {α : Type} (p : α → Bool) (l : List α) :
    (l.dropWhile p).dropWhile p = l.dropWhile p := by
  induction l with
  | nil => rfl
  | cons a t ih =>
    cases h : p a with
    | true => simp [List.dropWhile_cons, h, ih]
    | false => simp [List.dropWhile_cons, h]

theorem jsTrimRight_idem (l : List Char) : jsTrimRight (jsTrimRight l) = jsTrimRight l := by
  induction l with
  | nil => rfl
  | cons c t ih =>
    rw [jsTrimRight]
    cases hE : (jsTrimRight t).isEmpty && jsWhitespaceChar c with
    | true => simp [hE, jsTrimRight]
    | false =>
      simp only [hE, Bool.false_eq_true, if_false]
      rw [jsTrimRight, ih, hE]
      simp

theorem jsTrimRight_dropWhile (l : List Char) (hl : l.dropWhile jsWhitespaceChar = l) :
    (jsTrimRight l).dropWhile jsWhitespaceChar = jsTrimRight l := by
  cases l with
  | nil => rfl
  | cons c t =>
    have hc : jsWhitespaceChar c = false := by
      cases h : jsWhitespaceChar c
      · rfl
      · exfalso
        rw [List.dropWhile_cons, h, if_pos rfl] at hl
        have hsub := List.dropWhile_sublist (p := jsWhitespaceChar) (l := t)
        rw [hl] at hsub
        exact absurd hsub.length_le (by simp)
    rw [jsTrimRight]
    simp only [hc, Bool.and_false, Bool.false_eq_true, if_false]
    simp [List.dropWhile_cons, hc]

theorem jsTrim_idem (s : String) : jsTrim (jsTrim s) = jsTrim s := by
  unfold jsTrim
  congr 1
  have hA : ((s.data.dropWhile jsWhitespaceChar).dropWhile jsWhitespaceChar)
      = s.data.dropWhile jsWhitespaceChar := dropWhile_dropWhile_self _ _
  have hB := jsTrimRight_dropWhile _ hA
  rw [show (String.mk (jsTrimRight (s.data.dropWhile jsWhitespaceChar))).data
      = jsTrimRight (s.data.dropWhile jsWhitespaceChar) from rfl]
  rw [hB]
  exact jsTrimRight_idem _

theorem jsTrim_empty : jsTrim "" = "" := rfl

theorem extractCardKey_str (s : String) : extractCardKey (.str s) = jsTrim s := by
  rw [extractCardKey]
  by_cases h : s = ""
  · rw [if_pos h, h, jsTrim_empty]
  · rw [if_neg h]

/-! ### Every non-empty extraction result is already trimmed -/

theorem directLookup_trimmed : ∀ (ks : List String) (fields : List (String × Payload)),
    jsTrim (directLookup ks fields) = directLookup ks fields
  | [], _ => jsTrim_empty
  | k :: ks, fields => by
    rw [directLookup]
    cases hL : lookupField fields k with
    | none => exact directLookup_trimmed ks fields
    | some v =>
      cases v with
      | str s =>
        show jsTrim (if jsTrim s = "" then directLookup ks fields else jsTrim s)
            = if jsTrim s = "" then directLookup ks fields else jsTrim s
        by_cases h : jsTrim s = ""
        · rw [if_pos h]; exact directLookup_trimmed ks fields
        · rw [if_neg h]; exact jsTrim_idem s
      | num n => exact directLookup_trimmed ks fields
      | bool b => exact directLookup_trimmed ks fields
      | null => exact directLookup_trimmed ks fields
      | arr l => exact directLookup_trimmed ks fields
      | obj f => exact directLookup_trimmed ks fields

mutual

theorem extractCardKey_trimmed : ∀ p : Payload, jsTrim (extractCardKey p) = extractCardKey p
  | .str s => by rw [extractCardKey_str]; exact jsTrim_idem s
  | .num _ => jsTrim_empty
  | .bool _ => jsTrim_empty
  | .null => jsTrim_empty
  | .arr items => extractFromArr_trimmed items
  | .obj fields => by
    show jsTrim
        (if directLookup ["cardKey", "card", "key", "code"] fields = "" then
          if extractFromField "data" fields = "" then
            if extractFromField "result" fields = "" then extractFromField "item" fields
            else extractFromField "result" fields
          else extractFromField "data" fields
        else directLookup ["cardKey", "card", "key", "code"] fields)
      = if directLookup ["cardKey", "card", "key", "code"] fields = "" then
          if extractFromField "data" fields = "" then
            if extractFromField "result" fields = "" then extractFromField "item" fields
            else extractFromField "result" fields
          else extractFromField "data" fields
        else directLookup ["cardKey", "card", "key", "code"] fields
    by_cases hD : directLookup ["cardKey", "card", "key", "code"] fields = ""
    · rw [if_pos hD]
      by_cases h1 : extractFromField "data" fields = ""
      · rw [if_pos h1]
        by_cases h2 : extractFromField "result" fields = ""
        · rw [if_pos h2]; exact extractFromField_trimmed "item" fields
        · rw [if_neg h2]; exact extractFromField_trimmed "result" fields
      · rw [if_neg h1]; exact extractFromField_trimmed "data" fields
    · rw [if_neg hD]; exact directLookup_trimmed _ fields

theorem extractFromArr_trimmed : ∀ l : List Payload,
    jsTrim (extractFromArr l) = extractFromArr l
  | [] => jsTrim_empty
  | p :: rest => by
    show jsTrim (if extractCardKey p = "" then extractFromArr rest else extractCardKey p)
      = if extractCardKey p = "" then extractFromArr rest else extractCardKey p
    by_cases h : extractCardKey p = ""
    · rw [if_pos h]; exact extractFromArr_trimmed rest
    · rw [if_neg h]; exact extractCardKey_trimmed p

theorem extractFromField_trimmed : ∀ (key : String) (fields : List (String × Payload)),
    jsTrim (extractFromField key fields) = extractFromField key fields
  | _, [] => jsTrim_empty
  | key, (k, v) :: rest => by
    rw [extractFromField]
    by_cases h : k = key
    · rw [if_pos h]; exact extractCardKey_trimmed v
    · rw [if_neg h]; exact extractFromField_trimmed key rest

end

/-! ### Array extraction: first non-empty element wins -/

theorem extractFromArr_eq_find : ∀ l : List Payload,
    extractFromArr l = ((l.map extractCardKey).find? (fun v => v != "")).getD ""
  | [] => rfl
  | p :: rest => by
    show (if extractCardKey p = "" then extractFromArr rest else extractCardKey p) = _
    by_cases h : extractCardKey p = ""
    · rw [if_pos h, extractFromArr_eq_find rest]
      simp [List.find?, h]
    · rw [if_neg h]
      have hb : (extractCardKey p != "") = true := by simpa using h
      simp [List.find?, hb]

theorem extractCardKey_arr (items : List Payload) :
    extractCardKey (.arr items) = extractFromArr items := rfl

/-- C5: for every array payload, extraction returns the extraction of the
leftmost element whose own extraction is non-empty, and the empty string
when every element extracts to the empty string. -/
theorem extractCardKey_array_leftmost :
    (∀ items : List Payload,
      extractCardKey (.arr items)
        = ((items.map extractCardKey).find? (fun v => v != "")).getD "")
    ∧ (∀ items : List Payload, (∀ p ∈ items, extractCardKey p = "") →
        extractCardKey (.arr items) = "")
    ∧ (∀ (items : List Payload) (i : Nat) (h : i < items.length),
        extractCardKey (items.get ⟨i, h⟩) ≠ "" →
        (∀ (j : Nat) (hj : j < i), extractCardKey (items.get ⟨j, Nat.lt_trans hj h⟩) = "") →
        extractCardKey (.arr items) = extractCardKey (items.get ⟨i, h⟩)) := by
  refine ⟨?_, ?_, ?_⟩
  · intro items
    rw [extractCardKey_arr, extractFromArr_eq_find]
  · intro items hall
    rw [extractCardKey_arr, extractFromArr_eq_find]
    have : (items.map extractCardKey).find? (fun v => v != "") = none := by
      rw [List.find?_eq_none]
      intro x hx
      rcases List.mem_map.mp hx with ⟨p, hp, rfl⟩
      simp [hall p hp]
    rw [this]
    rfl
  · intro items
    induction items with
    | nil => intro i h; exact absurd h (Nat.not_lt_zero i)
    | cons p rest ih =>
      intro i h hx hj
      rw [extractCardKey_arr]
      show (if extractCardKey p = "" then extractFromArr rest else extractCardKey p) = _
      cases i with
      | zero =>
        rw [if_neg (show ¬extractCardKey p = "" from hx)]
        rfl
      | succ i =>
        have h0 : extractCardKey p = "" := hj 0 (Nat.succ_pos i)
        rw [if_pos h0]
        have := ih i (Nat.lt_of_succ_lt_succ h) hx
          (fun j hjlt => hj (j + 1) (Nat.succ_lt_succ hjlt))
        rw [extractCardKey_arr] at this
        exact this

/-- C5 witness: on a concrete array the second element is the leftmost
non-empty extraction and wins. -/
theorem extractCardKey_array_leftmost_witness :
    extractCardKey (Payload.arr [.num 7, .str " K2 ", .str "zz"])
      = extractCardKey (Payload.str " K2 ") :=
  extractCardKey_array_leftmost.2.2 [.num 7, .str " K2 ", .str "zz"] 1 (by decide)
    (by decide)
    (fun j hj => by
      have hj0 : j = 0 := Nat.lt_one_iff.mp hj
      subst hj0
      exact (show extractCardKey (Payload.num 7) = "" from rfl))

/-- C4: a non-empty string payload extracts to its trim; numbers, booleans,
`null` and the empty string extract to the empty string. -/
theorem extractCardKey_scalar_shapes :
    (∀ s : String, s ≠ "" → extractCardKey (.str s) = jsTrim s)
    ∧ extractCardKey (.str "") = ""
    ∧ (∀ n : Int, extractCardKey (.num n) = "")
    ∧ (∀ b : Bool, extractCardKey (.bool b) = "")
    ∧ extractCardKey .null = "" :=
  ⟨fun s _ => extractCardKey_str s, rfl, fun _ => rfl, fun _ => rfl, rfl⟩

/-- C4 witness: the concrete non-empty string " K1 " extracts to its trim. -/
theorem extractCardKey_scalar_shapes_witness :
    (" K1 " : String) ≠ "" ∧ extractCardKey (.str " K1 ") = jsTrim " K1 " :=
  ⟨by decide, extractCardKey_scalar_shapes.1 " K1 " (by decide)⟩

/-! ### Object extraction: direct keys win over nested containers -/

/-- Claim-side reading of the direct-key probe: the first key in the
priority order `cardKey`, `card`, `key`, `code` that is bound to a string
whose trim is non-empty, together with that trimmed value. -/
def directProbe (fields : List (String × Payload)) : Option String :=
  ["cardKey", "card", "key", "code"].findSome? (fun k =>
    match lookupField fields k with
    | some (.str s) => if jsTrim s = "" then none else some (jsTrim s)
    | _ => none)

theorem directLookup_eq_findSome : ∀ (ks : List String) (fields : List (String × Payload)),
    directLookup ks fields
      = (ks.findSome? (fun k =>
          match lookupField fields k with
          | some (.str s) => if jsTrim s = "" then none else some (jsTrim s)
          | _ => none)).getD ""
  | [], _ => rfl
  | k :: ks, fields => by
    rw [directLookup, List.findSome?_cons]
    cases hL : lookupField fields k with
    | none => exact directLookup_eq_findSome ks fields
    | some v =>
      cases v with
      | str s =>
        simp only []
        by_cases h : jsTrim s = ""
        · rw [if_pos h, if_pos h]
          simp only []
          exact directLookup_eq_findSome ks fields
        · rw [if_neg h, if_neg h]
          rfl
      | num n => exact directLookup_eq_findSome ks fields
      | bool b => exact directLookup_eq_findSome ks fields
      | null => exact directLookup_eq_findSome ks fields
      | arr l => exact directLookup_eq_findSome ks fields
      | obj f => exact directLookup_eq_findSome ks fields

theorem findSome_probe_ne_empty : ∀ (ks : List String) (fields : List (String × Payload))
    (s : String),
    (ks.findSome? (fun k =>
        match lookupField fields k with
        | some (.str s) => if jsTrim s = "" then none else some (jsTrim s)
        | _ => none)) = some s → s ≠ ""
  | [], _, s => by intro h; exact absurd h (by simp)
  | k :: ks, fields, s => by
    intro h
    rw [List.findSome?_cons] at h
    cases hL : lookupField fields k with
    | none =>
      rw [hL] at h
      exact findSome_probe_ne_empty ks fields s h
    | some v =>
      cases v with
      | str s2 =>
        rw [hL] at h
        simp only [] at h
        by_cases h2 : jsTrim s2 = ""
        · rw [if_pos h2] at h
          simp only [] at h
          exact findSome_probe_ne_empty ks fields s h
        · rw [if_neg h2] at h
          simp only [Option.some.injEq] at h
          exact h ▸ h2
      | num n => rw [hL] at h; exact findSome_probe_ne_empty ks fields s h
      | bool b => rw [hL] at h; exact findSome_probe_ne_empty ks fields s h
      | null => rw [hL] at h; exact findSome_probe_ne_empty ks fields s h
      | arr l => rw [hL] at h; exact findSome_probe_ne_empty ks fields s h
      | obj f => rw [hL] at h; exact findSome_probe_ne_empty ks fields s h

theorem extractFromField_eq_lookup : ∀ (key : String) (fields : List (String × Payload)),
    extractFromField key fields
      = match lookupField fields key with
        | some v => extractCardKey v
        | none => ""
  | _, [] => rfl
  | key, (k, v) :: rest => by
    rw [extractFromField, lookupField]
    by_cases h : k = key
    · rw [if_pos h, if_pos h]
    · rw [if_neg h, if_neg h]
      exact extractFromField_eq_lookup key rest

theorem extractCardKey_obj (fields : List (String × Payload)) :
    extractCardKey (.obj fields)
      = if directLookup ["cardKey", "card", "key", "code"] fields = "" then
          if extractFromField "data" fields = "" then
            if extractFromField "result" fields = "" then extractFromField "item" fields
            else extractFromField "result" fields
          else extractFromField "data" fields
        else directLookup ["cardKey", "card", "key", "code"] fields := rfl

/-- C3: an object with at least one direct key (`cardKey`, `card`, `key`,
`code`) bound to a string with non-empty trim extracts to the trimmed value
of the first such key in priority order, whatever `data` / `result` /
`item` hold; only when no direct key matches are the nested keys probed, in
order, each recursively. -/
theorem extractCardKey_direct_precedence :
    (∀ (fields : List (String × Payload)) (s : String),
      directProbe fields = some s → extractCardKey (.obj fields) = s)
    ∧ (∀ fields : List (String × Payload), directProbe fields = none →
      extractCardKey (.obj fields)
        = ((["data", "result", "item"].map (fun k =>
            match lookupField fields k with
            | some v => extractCardKey v
            | none => "")).find? (fun v => v != "")).getD "") := by
  constructor
  · intro fields s h
    have hs : s ≠ "" := findSome_probe_ne_empty _ fields s h
    have hd : directLookup ["cardKey", "card", "key", "code"] fields = s := by
      rw [directLookup_eq_findSome]
      unfold directProbe at h
      rw [h]
      rfl
    rw [extractCardKey_obj, hd, if_neg hs]
  · intro fields h
    have hd : directLookup ["cardKey", "card", "key", "code"] fields = "" := by
      rw [directLookup_eq_findSome]
      unfold directProbe at h
      rw [h]
      rfl
    rw [extractCardKey_obj, hd, if_pos rfl]
    rw [List.map_cons, List.map_cons, List.map_cons, List.map_nil]
    rw [← extractFromField_eq_lookup, ← extractFromField_eq_lookup, ← extractFromField_eq_lookup]
    by_cases h1 : extractFromField "data" fields = ""
    · rw [if_pos h1, h1]
      by_cases h2 : extractFromField "result" fields = ""
      · rw [if_pos h2, h2]
        by_cases h3 : extractFromField "item" fields = ""
        · rw [h3]; simp [List.find?]
        · have hb : (extractFromField "item" fields != "") = true := by simpa using h3
          simp [List.find?, hb]
      · rw [if_neg h2]
        have hb : (extractFromField "result" fields != "") = true := by simpa using h2
        simp [List.find?, hb]
    · rw [if_neg h1]
      have hb : (extractFromField "data" fields != "") = true := by simpa using h1
      simp [List.find?, hb]

/-- C3 witness: a concrete object where the direct key `key` beats the
nested `data` container. -/
theorem extractCardKey_direct_precedence_witness :
    directProbe [("data", .str "IGNORED"), ("key", .str " K3 ")] = some "K3"
    ∧ extractCardKey (.obj [("data", .str "IGNORED"), ("key", .str " K3 ")]) = "K3" :=
  ⟨by decide,
   extractCardKey_direct_precedence.1 [("data", .str "IGNORED"), ("key", .str " K3 ")] "K3"
     (by decide)⟩

/-! ### Step lemmas for the orchestrator -/

theorem pullRun_config_throw {env : Env} {pid : String} {e : JsError}
    (h : getProductCardApiConfig env pid = .error e) :
    pullRun env pid = (.error e, []) := by
  simp [pullRun, h]

theorem pullRun_disabled {env : Env} {pid : String} {cfg : ProductCardApiConfig}
    (h : getProductCardApiConfig env pid = .ok cfg) (he : cfg.enabled = false) :
    pullRun env pid
      = (.ok { ok := false, skipped := some true, error := some "api_disabled" }, []) := by
  simp [pullRun, h, he]

theorem pullRun_url_missing {env : Env} {pid : String} {cfg : ProductCardApiConfig}
    (h : getProductCardApiConfig env pid = .ok cfg) (he : cfg.enabled = true)
    (hu : cfg.url = "") :
    pullRun env pid = (.ok { ok := false, error := some "api_url_missing" }, []) := by
  simp [pullRun, h, he, hu]

theorem pullRun_url_invalid {env : Env} {pid : String} {cfg : ProductCardApiConfig} {e : JsError}
    (h : getProductCardApiConfig env pid = .ok cfg) (he : cfg.enabled = true)
    (hu : cfg.url ≠ "") (hr : resolveApiUrl env cfg.url = .error e) :
    pullRun env pid = (.ok { ok := false, error := some "api_url_invalid" }, []) := by
  simp [pullRun, h, he, hu, hr]

theorem pullRun_fetch_throw {env : Env} {pid : String} {cfg : ProductCardApiConfig}
    {u : String} {e : JsError}
    (h : getProductCardApiConfig env pid = .ok cfg) (he : cfg.enabled = true)
    (hu : cfg.url ≠ "") (hr : resolveApiUrl env cfg.url = .ok u)
    (hf : env.fetch u (requestHeaders cfg.token) = .error e) :
    pullRun env pid = (.error e, [.fetchCall u (requestHeaders cfg.token)]) := by
  simp [pullRun, h, he, hu, hr, hf]

theorem pullRun_not2xx {env : Env} {pid : String} {cfg : ProductCardApiConfig}
    {u : String} {resp : Response}
    (h : getProductCardApiConfig env pid = .ok cfg) (he : cfg.enabled = true)
    (hu : cfg.url ≠ "") (hr : resolveApiUrl env cfg.url = .ok u)
    (hf : env.fetch u (requestHeaders cfg.token) = .ok resp)
    (hs : responseOk resp = false) :
    pullRun env pid
      = (.ok { ok := false, error := some ("api_request_failed_" ++ toString resp.status) },
         [.fetchCall u (requestHeaders cfg.token)]) := by
  simp [pullRun, h, he, hu, hr, hf, hs]

theorem pullRun_decode_throw {env : Env} {pid : String} {cfg : ProductCardApiConfig}
    {u : String} {resp : Response} {e : JsError}
    (h : getProductCardApiConfig env pid = .ok cfg) (he : cfg.enabled = true)
    (hu : cfg.url ≠ "") (hr : resolveApiUrl env cfg.url = .ok u)
    (hf : env.fetch u (requestHeaders cfg.token) = .ok resp)
    (hs : responseOk resp = true) (hp : decodePayload resp = .error e) :
    pullRun env pid = (.error e, [.fetchCall u (requestHeaders cfg.token)]) := by
  simp [pullRun, h, he, hu, hr, hf, hs, hp]

theorem pullRun_card_missing {env : Env} {pid : String} {cfg : ProductCardApiConfig}
    {u : String} {resp : Response} {payload : Payload}
    (h : getProductCardApiConfig env pid = .ok cfg) (he : cfg.enabled = true)
    (hu : cfg.url ≠ "") (hr : resolveApiUrl env cfg.url = .ok u)
    (hf : env.fetch u (requestHeaders cfg.token) = .ok resp)
    (hs : responseOk resp = true) (hp : decodePayload resp = .ok payload)
    (hx : extractCardKey payload = "") :
    pullRun env pid
      = (.ok { ok := false, error := some "api_card_missing" },
         [.fetchCall u (requestHeaders cfg.token)]) := by
  simp [pullRun, h, he, hu, hr, hf, hs, hp, hx]

theorem pullRun_insert_dup {env : Env} {pid : String} {cfg : ProductCardApiConfig}
    {u : String} {resp : Response} {payload : Payload} {e : JsError}
    (h : getProductCardApiConfig env pid = .ok cfg) (he : cfg.enabled = true)
    (hu : cfg.url ≠ "") (hr : resolveApiUrl env cfg.url = .ok u)
    (hf : env.fetch u (requestHeaders cfg.token) = .ok resp)
    (hs : responseOk resp = true) (hp : decodePayload resp = .ok payload)
    (hx : extractCardKey payload ≠ "")
    (hi : env.insert pid (extractCardKey payload) = .error e)
    (hd : isUniqueConstraintError e = true) :
    pullRun env pid
      = (.ok { ok := false, error := some "api_card_duplicate" },
         [.fetchCall u (requestHeaders cfg.token), .insertCall pid (extractCardKey payload)]) := by
  simp [pullRun, h, he, hu, hr, hf, hs, hp, hx, hi, hd]

theorem pullRun_insert_other {env : Env} {pid : String} {cfg : ProductCardApiConfig}
    {u : String} {resp : Response} {payload : Payload} {e : JsError}
    (h : getProductCardApiConfig env pid = .ok cfg) (he : cfg.enabled = true)
    (hu : cfg.url ≠ "") (hr : resolveApiUrl env cfg.url = .ok u)
    (hf : env.fetch u (requestHeaders cfg.token) = .ok resp)
    (hs : responseOk resp = true) (hp : decodePayload resp = .ok payload)
    (hx : extractCardKey payload ≠ "")
    (hi : env.insert pid (extractCardKey payload) = .error e)
    (hd : isUniqueConstraintError e = false) :
    pullRun env pid
      = (.ok { ok := false,
               error := some (if e.message = "" then "api_insert_failed" else e.message) },
         [.fetchCall u (requestHeaders cfg.token), .insertCall pid (extractCardKey payload)]) := by
  simp [pullRun, h, he, hu, hr, hf, hs, hp, hx, hi, hd]

theorem pullRun_insert_success {env : Env} {pid : String} {cfg : ProductCardApiConfig}
    {u : String} {resp : Response} {payload : Payload}
    (h : getProductCardApiConfig env pid = .ok cfg) (he : cfg.enabled = true)
    (hu : cfg.url ≠ "") (hr : resolveApiUrl env cfg.url = .ok u)
    (hf : env.fetch u (requestHeaders cfg.token) = .ok resp)
    (hs : responseOk resp = true) (hp : decodePayload resp = .ok payload)
    (hx : extractCardKey payload ≠ "")
    (hi : env.insert pid (extractCardKey payload) = .ok ()) :
    pullRun env pid
      = (.ok { ok := true, cardKey := some (extractCardKey payload) },
         [.fetchCall u (requestHeaders cfg.token), .insertCall pid (extractCardKey payload)]) := by
  simp [pullRun, h, he, hu, hr, hf, hs, hp, hx, hi]

/-- Exhaustive case analysis of one pull attempt: every run ends in exactly
one of the eleven branch outcomes of the orchestrator. -/
theorem pullRun_inversion (env : Env) (pid : String) :
    (∃ e, getProductCardApiConfig env pid = .error e ∧ pullRun env pid = (.error e, []))
    ∨ (∃ cfg, getProductCardApiConfig env pid = .ok cfg ∧ cfg.enabled = false ∧
        pullRun env pid
          = (.ok { ok := false, skipped := some true, error := some "api_disabled" }, []))
    ∨ (∃ cfg, getProductCardApiConfig env pid = .ok cfg ∧ cfg.enabled = true ∧ cfg.url = "" ∧
        pullRun env pid = (.ok { ok := false, error := some "api_url_missing" }, []))
    ∨ (∃ cfg e, getProductCardApiConfig env pid = .ok cfg ∧ cfg.enabled = true ∧ cfg.url ≠ "" ∧
        resolveApiUrl env cfg.url = .error e ∧
        pullRun env pid = (.ok { ok := false, error := some "api_url_invalid" }, []))
    ∨ (∃ cfg u e, getProductCardApiConfig env pid = .ok cfg ∧ cfg.enabled = true ∧ cfg.url ≠ "" ∧
        resolveApiUrl env cfg.url = .ok u ∧
        env.fetch u (requestHeaders cfg.token) = .error e ∧
        pullRun env pid = (.error e, [.fetchCall u (requestHeaders cfg.token)]))
    ∨ (∃ cfg u resp, getProductCardApiConfig env pid = .ok cfg ∧ cfg.enabled = true ∧
        cfg.url ≠ "" ∧ resolveApiUrl env cfg.url = .ok u ∧
        env.fetch u (requestHeaders cfg.token) = .ok resp ∧ responseOk resp = false ∧
        pullRun env pid
          = (.ok { ok := false, error := some ("api_request_failed_" ++ toString resp.status) },
             [.fetchCall u (requestHeaders cfg.token)]))
    ∨ (∃ cfg u resp e, getProductCardApiConfig env pid = .ok cfg ∧ cfg.enabled = true ∧
        cfg.url ≠ "" ∧ resolveApiUrl env cfg.url = .ok u ∧
        env.fetch u (requestHeaders cfg.token) = .ok resp ∧ responseOk resp = true ∧
        decodePayload resp = .error e ∧
        pullRun env pid = (.error e, [.fetchCall u (requestHeaders cfg.token)]))
    ∨ (∃ cfg u resp payload, getProductCardApiConfig env pid = .ok cfg ∧ cfg.enabled = true ∧
        cfg.url ≠ "" ∧ resolveApiUrl env cfg.url = .ok u ∧
        env.fetch u (requestHeaders cfg.token) = .ok resp ∧ responseOk resp = true ∧
        decodePayload resp = .ok payload ∧ extractCardKey payload = "" ∧
        pullRun env pid
          = (.ok { ok := false, error := some "api_card_missing" },
             [.fetchCall u (requestHeaders cfg.token)]))
    ∨ (∃ cfg u resp payload e, getProductCardApiConfig env pid = .ok cfg ∧ cfg.enabled = true ∧
        cfg.url ≠ "" ∧ resolveApiUrl env cfg.url = .ok u ∧
        env.fetch u (requestHeaders cfg.token) = .ok resp ∧ responseOk resp = true ∧
        decodePayload resp = .ok payload ∧ extractCardKey payload ≠ "" ∧
        env.insert pid (extractCardKey payload) = .error e ∧ isUniqueConstraintError e = true ∧
        pullRun env pid
          = (.ok { ok := false, error := some "api_card_duplicate" },
             [.fetchCall u (requestHeaders cfg.token), .insertCall pid (extractCardKey payload)]))
    ∨ (∃ cfg u resp payload e, getProductCardApiConfig env pid = .ok cfg ∧ cfg.enabled = true ∧
        cfg.url ≠ "" ∧ resolveApiUrl env cfg.url = .ok u ∧
        env.fetch u (requestHeaders cfg.token) = .ok resp ∧ responseOk resp = true ∧
        decodePayload resp = .ok payload ∧ extractCardKey payload ≠ "" ∧
        env.insert pid (extractCardKey payload) = .error e ∧ isUniqueConstraintError e = false ∧
        pullRun env pid
          = (.ok { ok := false,
                   error := some (if e.message = "" then "api_insert_failed" else e.message) },
             [.fetchCall u (requestHeaders cfg.token), .insertCall pid (extractCardKey payload)]))
    ∨ (∃ cfg u resp payload, getProductCardApiConfig env pid = .ok cfg ∧ cfg.enabled = true ∧
        cfg.url ≠ "" ∧ resolveApiUrl env cfg.url = .ok u ∧
        env.fetch u (requestHeaders cfg.token) = .ok resp ∧ responseOk resp = true ∧
        decodePayload resp = .ok payload ∧ extractCardKey payload ≠ "" ∧
        env.insert pid (extractCardKey payload) = .ok () ∧
        pullRun env pid
          = (.ok { ok := true, cardKey := some (extractCardKey payload) },
             [.fetchCall u (requestHeaders cfg.token), .insertCall pid (extractCardKey payload)])) := by
  rcases hG : getProductCardApiConfig env pid with e | cfg
  · exact Or.inl ⟨e, rfl, pullRun_config_throw hG⟩
  · cases hE : cfg.enabled with
    | false => exact Or.inr (Or.inl ⟨cfg, rfl, hE, pullRun_disabled hG hE⟩)
    | true =>
      by_cases hU : cfg.url = ""
      · exact Or.inr (Or.inr (Or.inl ⟨cfg, rfl, hE, hU, pullRun_url_missing hG hE hU⟩))
      · rcases hR : resolveApiUrl env cfg.url with e | u
        · exact Or.inr (Or.inr (Or.inr (Or.inl
            ⟨cfg, e, rfl, hE, hU, hR, pullRun_url_invalid hG hE hU hR⟩)))
        · rcases hF : env.fetch u (requestHeaders cfg.token) with e | resp
          · exact Or.inr (Or.inr (Or.inr (Or.inr (Or.inl
              ⟨cfg, u, e, rfl, hE, hU, hR, hF, pullRun_fetch_throw hG hE hU hR hF⟩))))
          · cases hS : responseOk resp with
            | false =>
              exact Or.inr (Or.inr (Or.inr (Or.inr (Or.inr (Or.inl
                ⟨cfg, u, resp, rfl, hE, hU, hR, hF, hS, pullRun_not2xx hG hE hU hR hF hS⟩)))))
            | true =>
              rcases hP : decodePayload resp with e | payload
              · exact Or.inr (Or.inr (Or.inr (Or.inr (Or.inr (Or.inr (Or.inl
                  ⟨cfg, u, resp, e, rfl, hE, hU, hR, hF, hS, hP,
                   pullRun_decode_throw hG hE hU hR hF hS hP⟩))))))
              · by_cases hX : extractCardKey payload = ""
                · exact Or.inr (Or.inr (Or.inr (Or.inr (Or.inr (Or.inr (Or.inr (Or.inl
                    ⟨cfg, u, resp, payload, rfl, hE, hU, hR, hF, hS, hP, hX,
                     pullRun_card_missing hG hE hU hR hF hS hP hX⟩)))))))
                · rcases hI : env.insert pid (extractCardKey payload) with e | u2
                  · cases hD : isUniqueConstraintError e with
                    | true =>
                      exact Or.inr (Or.inr (Or.inr (Or.inr (Or.inr (Or.inr (Or.inr (Or.inr
                        (Or.inl ⟨cfg, u, resp, payload, e, rfl, hE, hU, hR, hF, hS, hP, hX, hI, hD,
                         pullRun_insert_dup hG hE hU hR hF hS hP hX hI hD⟩))))))))
                    | false =>
                      exact Or.inr (Or.inr (Or.inr (Or.inr (Or.inr (Or.inr (Or.inr (Or.inr
                        (Or.inr (Or.inl
                          ⟨cfg, u, resp, payload, e, rfl, hE, hU, hR, hF, hS, hP, hX, hI, hD,
                           pullRun_insert_other hG hE hU hR hF hS hP hX hI hD⟩)))))))))
                  · cases u2
                    exact Or.inr (Or.inr (Or.inr (Or.inr (Or.inr (Or.inr (Or.inr (Or.inr
                      (Or.inr (Or.inr
                        ⟨cfg, u, resp, payload, rfl, hE, hU, hR, hF, hS, hP, hX, hI,
                         pullRun_insert_success hG hE hU hR hF hS hP hX hI⟩)))))))))

/-! ### The settings store: resolve and save -/

theorem keyOf_enabled (pid : String) : keyOf pid "enabled" = "cards_api_enabled_" ++ pid := rfl

theorem keyOf_url (pid : String) : keyOf pid "url" = "cards_api_url_" ++ pid := rfl

theorem keyOf_token (pid : String) : keyOf pid "token" = "cards_api_token_" ++ pid := rfl

/-- The three per-product settings keys are pairwise distinct (their
namespacing literals have different lengths). -/
theorem keyOf_fields_ne (pid : String) :
    keyOf pid "enabled" ≠ keyOf pid "url" ∧ keyOf pid "enabled" ≠ keyOf pid "token"
    ∧ keyOf pid "url" ≠ keyOf pid "token" := by
  refine ⟨fun h => ?_, fun h => ?_, fun h => ?_⟩ <;>
  · have hl := congrArg String.length h
    simp only [keyOf_enabled, keyOf_url, keyOf_token, String.length_append] at hl
    simp only [show ("cards_api_enabled_" : String).length = 18 from rfl,
      show ("cards_api_url_" : String).length = 14 from rfl,
      show ("cards_api_token_" : String).length = 16 from rfl] at hl
    omega

/-- Resolution of the config against a well-behaved settings table backed by
a store state: each key is looked up individually, missing keys default. -/
theorem getProductCardApiConfig_envWithStore (env : Env) (store : Store) (pid : String) :
    getProductCardApiConfig (envWithStore store env) pid
      = .ok { enabled := store (keyOf pid "enabled") == some "true",
              url := jsTrim ((store (keyOf pid "url")).getD ""),
              token := jsTrim ((store (keyOf pid "token")).getD "") } := by
  obtain ⟨h1, h2, h3⟩ := keyOf_fields_ne pid
  rcases hE : store (keyOf pid "enabled") with _ | vE <;>
    rcases hU : store (keyOf pid "url") with _ | vU <;>
      rcases hT : store (keyOf pid "token") with _ | vT <;>
        simp [getProductCardApiConfig, getSettingsUncached, envWithStore, settingsSelectOf,
          hE, hU, hT, settingsAssign, noSettings, h1, h2, h3, Ne.symm h1, Ne.symm h2, Ne.symm h3]

/-- C7: resolving a product's config reads the three namespaced settings
keys in a single batched lookup, in that `enabled` is true exactly when the
stored value of the enabled key is the string "true", `url` and `token` are
the stored values trimmed, missing keys default to false / the empty
string, and the result depends on nothing but those three stored values. -/
theorem getProductCardApiConfig_reads_three_keys :
    ∀ (env : Env) (store : Store) (pid : String),
      ∃ cfg, getProductCardApiConfig (envWithStore store env) pid = .ok cfg
        ∧ (cfg.enabled = true ↔ store ("cards_api_enabled_" ++ pid) = some "true")
        ∧ cfg.url = jsTrim ((store ("cards_api_url_" ++ pid)).getD "")
        ∧ cfg.token = jsTrim ((store ("cards_api_token_" ++ pid)).getD "")
        ∧ (store ("cards_api_enabled_" ++ pid) = none → cfg.enabled = false)
        ∧ (store ("cards_api_url_" ++ pid) = none → cfg.url = "")
        ∧ (store ("cards_api_token_" ++ pid) = none → cfg.token = "")
        ∧ (∀ (env2 : Env) (store2 : Store),
            store2 ("cards_api_enabled_" ++ pid) = store ("cards_api_enabled_" ++ pid) →
            store2 ("cards_api_url_" ++ pid) = store ("cards_api_url_" ++ pid) →
            store2 ("cards_api_token_" ++ pid) = store ("cards_api_token_" ++ pid) →
            getProductCardApiConfig (envWithStore store2 env2) pid = .ok cfg) := by
  intro env store pid
  refine ⟨_, getProductCardApiConfig_envWithStore env store pid, ?_, rfl, rfl, ?_, ?_, ?_, ?_⟩
  · rw [← keyOf_enabled]
    exact beq_iff_eq
  · intro h
    rw [← keyOf_enabled] at h
    simp [h]
  · intro h
    rw [← keyOf_url] at h
    simp [h, jsTrim_empty]
  · intro h
    rw [← keyOf_token] at h
    simp [h, jsTrim_empty]
  · intro env2 store2 hE hU hT
    rw [getProductCardApiConfig_envWithStore env2 store2 pid,
        keyOf_enabled, keyOf_url, keyOf_token, hE, hU, hT]

/-- C9: after saving a config for a product, resolving that product's
config returns the saved `enabled` flag and the trimmed `url` and `token`;
the save writes exactly the three namespaced keys, with `enabled`
normalized to the string "true" or "false". -/
theorem save_then_get_roundtrip :
    ∀ (env : Env) (store : Store) (pid : String) (config : ProductCardApiConfig),
      getProductCardApiConfig
          (envWithStore (saveProductCardApiConfig pid config store) env) pid
        = .ok { enabled := config.enabled, url := jsTrim config.url,
                token := jsTrim config.token }
      ∧ saveProductCardApiConfig pid config store (keyOf pid "enabled")
          = some (if config.enabled then "true" else "false")
      ∧ saveProductCardApiConfig pid config store (keyOf pid "url") = some (jsTrim config.url)
      ∧ saveProductCardApiConfig pid config store (keyOf pid "token")
          = some (jsTrim config.token) := by
  intro env store pid config
  obtain ⟨h1, h2, h3⟩ := keyOf_fields_ne pid
  have hsE : saveProductCardApiConfig pid config store (keyOf pid "enabled")
      = some (if config.enabled then "true" else "false") := by
    simp [saveProductCardApiConfig, setSetting, h2, h1]
  have hsU : saveProductCardApiConfig pid config store (keyOf pid "url")
      = some (jsTrim config.url) := by
    simp [saveProductCardApiConfig, setSetting, h3]
  have hsT : saveProductCardApiConfig pid config store (keyOf pid "token")
      = some (jsTrim config.token) := by
    simp [saveProductCardApiConfig, setSetting]
  refine ⟨?_, hsE, hsU, hsT⟩
  rw [getProductCardApiConfig_envWithStore env _ pid, hsE, hsU, hsT]
  cases hc : config.enabled <;>
    simp [Option.getD_some, jsTrim_idem]

/-! ### The substring heuristic agrees with list containment -/

theorem charsStartWith_iff : ∀ n h : List Char, charsStartWith n h = true ↔ n <+: h
  | [], h => by simp [charsStartWith]
  | a :: as, [] => by simp [charsStartWith]
  | a :: as, b :: bs => by
    rw [charsStartWith, Bool.and_eq_true, beq_iff_eq, charsStartWith_iff as bs]
    exact Iff.symm List.cons_prefix_cons

theorem charsContain_iff : ∀ n h : List Char, charsContain n h = true ↔ n <:+: h
  | n, [] => by
    rw [charsContain]
    simp [List.isEmpty_iff]
  | n, c :: rest => by
    rw [charsContain, Bool.or_eq_true, charsStartWith_iff, charsContain_iff n rest]
    exact Iff.symm List.infix_cons_iff

theorem strIncludes_iff (hay needle : String) :
    strIncludes hay needle = true ↔ needle.data <:+: hay.data :=
  charsContain_iff needle.data hay.data

/-! ### Concrete stores, responses and environments used as witnesses -/

/-- A store enabling product `p1` with a configured URL. -/
def storeA : Store := fun k =>
  if k = "cards_api_enabled_p1" then some "true"
  else if k = "cards_api_url_p1" then some "https://x/y" else none

/-- A store enabling product `p1` but with no URL configured. -/
def storeEnabledOnly : Store := fun k =>
  if k = "cards_api_enabled_p1" then some "true" else none

/-- A plain-text 200 response whose body is the card code `KEY1`. -/
def respA : Response :=
  { status := 200, contentType := none, jsonBody := Except.ok Payload.null,
    textBody := Except.ok "KEY1" }

/-- A fully healthy environment: enabled config, identity URL parser, one
plain-text card, insert succeeding. -/
def envOkA : Env :=
  { settingsSelect := settingsSelectOf storeA
    urlParse := fun u => .ok u
    fetch := fun _ _ => .ok respA
    insert := fun _ _ => .ok () }

/-- Like `envOkA` but with an empty settings store: the pull is disabled. -/
def envDisabled : Env :=
  { envOkA with settingsSelect := settingsSelectOf (fun _ => none) }

/-- Like `envOkA` but with no URL configured. -/
def envUrlMissing : Env :=
  { envOkA with settingsSelect := settingsSelectOf storeEnabledOnly }

/-- Like `envOkA` but the network fetch itself throws. -/
def envFetchThrow : Env :=
  { envOkA with fetch := fun _ _ => .error { message := "network down", serialized := "\x7b\x7d" } }

/-- Like `envOkA` but the card insert fails with the given error. -/
def envInsertFail (e : JsError) : Env :=
  { envOkA with insert := fun _ _ => .error e }

/-- An insert error carrying no message (`error.message` falsy). -/
def emptyMsgErr : JsError := { message := "", serialized := "\x7b\x7d" }

/-! ### Claim theorems about the orchestrator -/

/-- C1 (amended): `pullOneCardFromApi` checks its steps in order and
short-circuits at the first failing step with the corresponding outcome:
disabled config; empty url; failing URL normalization; non-2xx response;
empty extraction; duplicate-classified insert failure; other insert failure
(whose error is the store error's message, or `api_insert_failed` when that
message is empty); and finally success with the extracted card key. -/
theorem pullOneCardFromApi_step_outcomes :
    (∀ (env : Env) (pid : String) (cfg : ProductCardApiConfig),
      getProductCardApiConfig env pid = .ok cfg → cfg.enabled = false →
      pullOneCardFromApi env pid
        = .ok { ok := false, skipped := some true, error := some "api_disabled" })
    ∧ (∀ (env : Env) (pid : String) (cfg : ProductCardApiConfig),
      getProductCardApiConfig env pid = .ok cfg → cfg.enabled = true → cfg.url = "" →
      pullOneCardFromApi env pid = .ok { ok := false, error := some "api_url_missing" })
    ∧ (∀ (env : Env) (pid : String) (cfg : ProductCardApiConfig) (e : JsError),
      getProductCardApiConfig env pid = .ok cfg → cfg.enabled = true → cfg.url ≠ "" →
      resolveApiUrl env cfg.url = .error e →
      pullOneCardFromApi env pid = .ok { ok := false, error := some "api_url_invalid" })
    ∧ (∀ (env : Env) (pid : String) (cfg : ProductCardApiConfig) (u : String) (resp : Response),
      getProductCardApiConfig env pid = .ok cfg → cfg.enabled = true → cfg.url ≠ "" →
      resolveApiUrl env cfg.url = .ok u →
      env.fetch u (requestHeaders cfg.token) = .ok resp → responseOk resp = false →
      pullOneCardFromApi env pid
        = .ok { ok := false, error := some ("api_request_failed_" ++ toString resp.status) })
    ∧ (∀ (env : Env) (pid : String) (cfg : ProductCardApiConfig) (u : String) (resp : Response)
        (payload : Payload),
      getProductCardApiConfig env pid = .ok cfg → cfg.enabled = true → cfg.url ≠ "" →
      resolveApiUrl env cfg.url = .ok u →
      env.fetch u (requestHeaders cfg.token) = .ok resp → responseOk resp = true →
      decodePayload resp = .ok payload → extractCardKey payload = "" →
      pullOneCardFromApi env pid = .ok { ok := false, error := some "api_card_missing" })
    ∧ (∀ (env : Env) (pid : String) (cfg : ProductCardApiConfig) (u : String) (resp : Response)
        (payload : Payload) (e : JsError),
      getProductCardApiConfig env pid = .ok cfg → cfg.enabled = true → cfg.url ≠ "" →
      resolveApiUrl env cfg.url = .ok u →
      env.fetch u (requestHeaders cfg.token) = .ok resp → responseOk resp = true →
      decodePayload resp = .ok payload → extractCardKey payload ≠ "" →
      env.insert pid (extractCardKey payload) = .error e → isUniqueConstraintError e = true →
      pullOneCardFromApi env pid = .ok { ok := false, error := some "api_card_duplicate" })
    ∧ (∀ (env : Env) (pid : String) (cfg : ProductCardApiConfig) (u : String) (resp : Response)
        (payload : Payload) (e : JsError),
      getProductCardApiConfig env pid = .ok cfg → cfg.enabled = true → cfg.url ≠ "" →
      resolveApiUrl env cfg.url = .ok u →
      env.fetch u (requestHeaders cfg.token) = .ok resp → responseOk resp = true →
      decodePayload resp = .ok payload → extractCardKey payload ≠ "" →
      env.insert pid (extractCardKey payload) = .error e → isUniqueConstraintError e = false →
      pullOneCardFromApi env pid
        = .ok { ok := false,
                error := some (if e.message = "" then "api_insert_failed" else e.message) })
    ∧ (∀ (env : Env) (pid : String) (cfg : ProductCardApiConfig) (u : String) (resp : Response)
        (payload : Payload),
      getProductCardApiConfig env pid = .ok cfg → cfg.enabled = true → cfg.url ≠ "" →
      resolveApiUrl env cfg.url = .ok u →
      env.fetch u (requestHeaders cfg.token) = .ok resp → responseOk resp = true →
      decodePayload resp = .ok payload → extractCardKey payload ≠ "" →
      env.insert pid (extractCardKey payload) = .ok () →
      pullOneCardFromApi env pid
        = .ok { ok := true, cardKey := some (extractCardKey payload) }) := by
  refine ⟨?_, ?_, ?_, ?_, ?_, ?_, ?_, ?_⟩
  · intro env pid cfg hG hE
    rw [pullOneCardFromApi, pullRun_disabled hG hE]
  · intro env pid cfg hG hE hU
    rw [pullOneCardFromApi, pullRun_url_missing hG hE hU]
  · intro env pid cfg e hG hE hU hR
    rw [pullOneCardFromApi, pullRun_url_invalid hG hE hU hR]
  · intro env pid cfg u resp hG hE hU hR hF hS
    rw [pullOneCardFromApi, pullRun_not2xx hG hE hU hR hF hS]
  · intro env pid cfg u resp payload hG hE hU hR hF hS hP hX
    rw [pullOneCardFromApi, pullRun_card_missing hG hE hU hR hF hS hP hX]
  · intro env pid cfg u resp payload e hG hE hU hR hF hS hP hX hI hD
    rw [pullOneCardFromApi, pullRun_insert_dup hG hE hU hR hF hS hP hX hI hD]
  · intro env pid cfg u resp payload e hG hE hU hR hF hS hP hX hI hD
    rw [pullOneCardFromApi, pullRun_insert_other hG hE hU hR hF hS hP hX hI hD]
  · intro env pid cfg u resp payload hG hE hU hR hF hS hP hX hI
    rw [pullOneCardFromApi, pullRun_insert_success hG hE hU hR hF hS hP hX hI]

/-- C1 counterexample: when the insert fails with an error whose message is
empty (and which is not classified as a uniqueness violation), the returned
error is the literal `api_insert_failed`, not the store error's (empty)
message as the claim states. -/
theorem pullOneCardFromApi_insert_message_cex :
    (envInsertFail emptyMsgErr).insert "p1" "KEY1" = .error emptyMsgErr
    ∧ isUniqueConstraintError emptyMsgErr = false
    ∧ emptyMsgErr.message = ""
    ∧ pullOneCardFromApi (envInsertFail emptyMsgErr) "p1"
        = .ok { ok := false, error := some "api_insert_failed" }
    ∧ (.ok { ok := false, error := some "api_insert_failed" } : Except JsError PullOutcome)
        ≠ .ok { ok := false, error := some emptyMsgErr.message } := by
  decide

/-- C1 witness: the amended claim instantiated at concrete environments,
once on the disabled path and once on the success path. -/
theorem pullOneCardFromApi_step_outcomes_witness :
    pullOneCardFromApi envDisabled "p1"
      = .ok { ok := false, skipped := some true, error := some "api_disabled" }
    ∧ pullOneCardFromApi envOkA "p1" = .ok { ok := true, cardKey := some "KEY1" } :=
  ⟨pullOneCardFromApi_step_outcomes.1 envDisabled "p1"
      { enabled := false, url := "", token := "" } (by decide) rfl,
   pullOneCardFromApi_step_outcomes.2.2.2.2.2.2.2 envOkA "p1"
      { enabled := true, url := "https://x/y", token := "" } "https://x/y" respA
      (.str "KEY1") (by decide) rfl (by decide) (by decide) rfl (by decide) rfl
      (by decide) rfl⟩

/-- A settings table whose only failure mode on the three config keys is
the tolerated missing-table error. -/
def settingsBenign (env : Env) (pid : String) : Prop :=
  ∀ e, env.settingsSelect [keyOf pid "enabled", keyOf pid "url", keyOf pid "token"] = .error e →
    (strIncludes (errText e) "no such table" && strIncludes (errText e) "settings") = true

theorem getSettingsUncached_missing_table {env : Env} {keys : List String} {e : JsError}
    (hS : env.settingsSelect keys = .error e)
    (hbe : (strIncludes (errText e) "no such table" && strIncludes (errText e) "settings")
      = true) :
    getSettingsUncached env keys = .ok noSettings := by
  rw [getSettingsUncached, hS]
  simp [hbe]

theorem getConfig_no_throw_of_benign {env : Env} {pid : String}
    (h : settingsBenign env pid) (e : JsError) :
    getProductCardApiConfig env pid ≠ .error e := by
  intro hG
  rcases hS : env.settingsSelect [keyOf pid "enabled", keyOf pid "url", keyOf pid "token"]
    with e2 | rows
  · have hm := getSettingsUncached_missing_table hS (h e2 hS)
    simp only [getProductCardApiConfig] at hG
    rw [hm] at hG
    simp at hG
  · simp only [getProductCardApiConfig] at hG
    rw [show getSettingsUncached env [keyOf pid "enabled", keyOf pid "url", keyOf pid "token"]
        = .ok (rows.foldl (fun m row => settingsAssign m row.1 (row.2.getD "")) noSettings)
      from by rw [getSettingsUncached, hS]] at hG
    simp at hG

/-- C2 (amended): the orchestrator converts URL-normalization failures and
every insert failure into outcome values, and tolerates a missing settings
table; but when the settings read fails otherwise, when the fetch itself
throws, or when decoding the response body throws, the exception
propagates.  Under collaborators whose only failures are the converted
ones, every pull returns an outcome value. -/
theorem pullOneCardFromApi_total_of_benign_io :
    ∀ (env : Env) (pid : String),
      settingsBenign env pid →
      (∀ u hd, ∃ r, env.fetch u hd = .ok r) →
      (∀ u hd r, env.fetch u hd = .ok r → ∃ p, decodePayload r = .ok p) →
      ∃ o, pullOneCardFromApi env pid = .ok o := by
  intro env pid hB hF hD
  rcases pullRun_inversion env pid with
    ⟨e, hG, hP⟩ | ⟨cfg, hG, hE, hP⟩ | ⟨cfg, hG, hE, hU, hP⟩ | ⟨cfg, e, hG, hE, hU, hR, hP⟩ |
    ⟨cfg, u, e, hG, hE, hU, hR, hFe, hP⟩ | ⟨cfg, u, resp, hG, hE, hU, hR, hFo, hS, hP⟩ |
    ⟨cfg, u, resp, e, hG, hE, hU, hR, hFo, hS, hDe, hP⟩ |
    ⟨cfg, u, resp, payload, hG, hE, hU, hR, hFo, hS, hDo, hX, hP⟩ |
    ⟨cfg, u, resp, payload, e, hG, hE, hU, hR, hFo, hS, hDo, hX, hI, hIU, hP⟩ |
    ⟨cfg, u, resp, payload, e, hG, hE, hU, hR, hFo, hS, hDo, hX, hI, hIU, hP⟩ |
    ⟨cfg, u, resp, payload, hG, hE, hU, hR, hFo, hS, hDo, hX, hI, hP⟩
  · exact absurd hG (getConfig_no_throw_of_benign hB e)
  · exact ⟨_, by rw [pullOneCardFromApi, hP]⟩
  · exact ⟨_, by rw [pullOneCardFromApi, hP]⟩
  · exact ⟨_, by rw [pullOneCardFromApi, hP]⟩
  · rcases hF u (requestHeaders cfg.token) with ⟨r, hr⟩
    rw [hFe] at hr
    exact Except.noConfusion hr
  · exact ⟨_, by rw [pullOneCardFromApi, hP]⟩
  · rcases hD u (requestHeaders cfg.token) resp hFo with ⟨p, hp⟩
    rw [hDe] at hp
    exact Except.noConfusion hp
  · exact ⟨_, by rw [pullOneCardFromApi, hP]⟩
  · exact ⟨_, by rw [pullOneCardFromApi, hP]⟩
  · exact ⟨_, by rw [pullOneCardFromApi, hP]⟩
  · exact ⟨_, by rw [pullOneCardFromApi, hP]⟩

/-- C2 counterexample: a fetch that throws propagates out of
`pullOneCardFromApi` as an exception rather than being converted into an
outcome value. -/
theorem pullOneCardFromApi_fetch_throw_cex :
    pullOneCardFromApi envFetchThrow "p1"
      = .error { message := "network down", serialized := "\x7b\x7d" } := by
  decide

/-- C2 witness: the amended claim instantiated at a healthy concrete
environment. -/
theorem pullOneCardFromApi_total_of_benign_io_witness :
    ∃ o, pullOneCardFromApi envOkA "p1" = .ok o :=
  pullOneCardFromApi_total_of_benign_io envOkA "p1"
    (fun e h => Except.noConfusion h)
    (fun _ _ => ⟨respA, rfl⟩)
    (fun _ _ r hr => ⟨.str "KEY1", by cases hr; rfl⟩)

/-- C6 (amended): the `api_disabled` outcome (the one carrying
`skipped: true`) is returned only from the config check, with no fetch and
no insert performed; and whenever the resolved config is disabled, lacks a
URL, or its URL fails normalization, the corresponding configuration-error
outcome is returned with no fetch and no insert performed.  (The bare
`api_url_missing` / `api_url_invalid` outcome values can also be produced
by an insert failure whose message happens to equal that string, after IO
was performed — see the counterexample.) -/
theorem pull_config_errors_no_io :
    (∀ (env : Env) (pid : String) (o : PullOutcome),
      (pullRun env pid).1 = .ok o → o.skipped = some true →
      o = { ok := false, skipped := some true, error := some "api_disabled" }
      ∧ (pullRun env pid).2 = [])
    ∧ (∀ (env : Env) (pid : String) (cfg : ProductCardApiConfig),
      getProductCardApiConfig env pid = .ok cfg → cfg.enabled = false →
      pullRun env pid
        = (.ok { ok := false, skipped := some true, error := some "api_disabled" }, []))
    ∧ (∀ (env : Env) (pid : String) (cfg : ProductCardApiConfig),
      getProductCardApiConfig env pid = .ok cfg → cfg.enabled = true → cfg.url = "" →
      pullRun env pid = (.ok { ok := false, error := some "api_url_missing" }, []))
    ∧ (∀ (env : Env) (pid : String) (cfg : ProductCardApiConfig) (e : JsError),
      getProductCardApiConfig env pid = .ok cfg → cfg.enabled = true → cfg.url ≠ "" →
      resolveApiUrl env cfg.url = .error e →
      pullRun env pid = (.ok { ok := false, error := some "api_url_invalid" }, [])) := by
  refine ⟨?_, fun env pid cfg hG hE => pullRun_disabled hG hE,
    fun env pid cfg hG hE hU => pullRun_url_missing hG hE hU,
    fun env pid cfg e hG hE hU hR => pullRun_url_invalid hG hE hU hR⟩
  intro env pid o h hs
  rcases pullRun_inversion env pid with
    ⟨e, hG, hP⟩ | ⟨cfg, hG, hE, hP⟩ | ⟨cfg, hG, hE, hU, hP⟩ | ⟨cfg, e, hG, hE, hU, hR, hP⟩ |
    ⟨cfg, u, e, hG, hE, hU, hR, hFe, hP⟩ | ⟨cfg, u, resp, hG, hE, hU, hR, hFo, hS, hP⟩ |
    ⟨cfg, u, resp, e, hG, hE, hU, hR, hFo, hS, hDe, hP⟩ |
    ⟨cfg, u, resp, payload, hG, hE, hU, hR, hFo, hS, hDo, hX, hP⟩ |
    ⟨cfg, u, resp, payload, e, hG, hE, hU, hR, hFo, hS, hDo, hX, hI, hIU, hP⟩ |
    ⟨cfg, u, resp, payload, e, hG, hE, hU, hR, hFo, hS, hDo, hX, hI, hIU, hP⟩ |
    ⟨cfg, u, resp, payload, hG, hE, hU, hR, hFo, hS, hDo, hX, hI, hP⟩
  · rw [hP] at h; simp at h
  · rw [hP] at h; simp at h; subst h; exact ⟨rfl, by rw [hP]⟩
  · rw [hP] at h; simp at h; subst h; simp at hs
  · rw [hP] at h; simp at h; subst h; simp at hs
  · rw [hP] at h; simp at h
  · rw [hP] at h; simp at h; subst h; simp at hs
  · rw [hP] at h; simp at h
  · rw [hP] at h; simp at h; subst h; simp at hs
  · rw [hP] at h; simp at h; subst h; simp at hs
  · rw [hP] at h; simp at h; subst h; simp at hs
  · rw [hP] at h; simp at h; subst h; simp at hs

/-- C6 counterexample: an insert failure whose message is the literal
string `api_url_missing` produces the very outcome value the claim calls a
configuration error, yet a fetch and an insert were performed. -/
theorem pull_config_error_alias_cex :
    (pullRun (envInsertFail { message := "api_url_missing", serialized := "\x7b\x7d" }) "p1").1
      = .ok { ok := false, error := some "api_url_missing" }
    ∧ (pullRun (envInsertFail { message := "api_url_missing", serialized := "\x7b\x7d" })
        "p1").2 ≠ [] := by
  decide

/-- C6 witness: with a URL-less enabled config, the pull reports
`api_url_missing` and records no fetch and no insert. -/
theorem pull_config_errors_no_io_witness :
    pullRun envUrlMissing "p1" = (.ok { ok := false, error := some "api_url_missing" }, []) :=
  pull_config_errors_no_io.2.2.1 envUrlMissing "p1" { enabled := true, url := "", token := "" }
    (by decide) rfl rfl

/-- C8 (amended): an insert failure is classified as `api_card_duplicate`
exactly when the lower-cased concatenation of the error's message and its
serialized form contains `unique` or `constraint failed`; any other insert
failure surfaces the error's message, with the literal `api_insert_failed`
substituted when that message is empty. -/
theorem insert_failure_classification :
    (∀ e : JsError, isUniqueConstraintError e = true ↔
      ("unique".data <:+: (errText e).data ∨ "constraint failed".data <:+: (errText e).data))
    ∧ (∀ (env : Env) (pid : String) (cfg : ProductCardApiConfig) (u : String) (resp : Response)
        (payload : Payload) (e : JsError),
      getProductCardApiConfig env pid = .ok cfg → cfg.enabled = true → cfg.url ≠ "" →
      resolveApiUrl env cfg.url = .ok u →
      env.fetch u (requestHeaders cfg.token) = .ok resp → responseOk resp = true →
      decodePayload resp = .ok payload → extractCardKey payload ≠ "" →
      env.insert pid (extractCardKey payload) = .error e →
      pullOneCardFromApi env pid
        = .ok { ok := false,
                error := some (if isUniqueConstraintError e then "api_card_duplicate"
                               else if e.message = "" then "api_insert_failed"
                               else e.message) }) := by
  constructor
  · intro e
    rw [isUniqueConstraintError, Bool.or_eq_true, strIncludes_iff, strIncludes_iff]
  · intro env pid cfg u resp payload e hG hE hU hR hF hS hP hX hI
    cases hD : isUniqueConstraintError e with
    | true =>
      rw [pullOneCardFromApi, pullRun_insert_dup hG hE hU hR hF hS hP hX hI hD]
      simp [hD]
    | false =>
      rw [pullOneCardFromApi, pullRun_insert_other hG hE hU hR hF hS hP hX hI hD]
      simp [hD]

/-- An insert error with an empty message and serialization `null`. -/
def noMsgNullErr : JsError := { message := "", serialized := "null" }

/-- An insert error whose message is the literal `api_card_duplicate` but
which is not a uniqueness violation. -/
def aliasDupErr : JsError := { message := "api_card_duplicate", serialized := "\x7b\x7d" }

/-- C8 counterexample: a non-duplicate insert failure with an empty message
is reported as `api_insert_failed`, not as the (empty) message the claim
says is preserved; and a non-duplicate failure whose message is the literal
`api_card_duplicate` yields an outcome indistinguishable from the duplicate
classification. -/
theorem insert_failure_classification_cex :
    isUniqueConstraintError noMsgNullErr = false
    ∧ pullOneCardFromApi (envInsertFail noMsgNullErr) "p1"
        = .ok { ok := false, error := some "api_insert_failed" }
    ∧ ("api_insert_failed" : String) ≠ noMsgNullErr.message
    ∧ isUniqueConstraintError aliasDupErr = false
    ∧ pullOneCardFromApi (envInsertFail aliasDupErr) "p1"
        = .ok { ok := false, error := some "api_card_duplicate" } := by
  decide

/-- A genuine uniqueness-violation error text as SQLite reports it. -/
def dupErr : JsError :=
  { message := "UNIQUE constraint failed: cards.card_key", serialized := "\x7b\x7d" }

/-- C8 witness: a uniqueness-violation insert failure at a concrete
environment is classified as `api_card_duplicate`. -/
theorem insert_failure_classification_witness :
    pullOneCardFromApi (envInsertFail dupErr) "p1"
      = .ok { ok := false, error := some "api_card_duplicate" } := by
  have h := insert_failure_classification.2 (envInsertFail dupErr) "p1"
    { enabled := true, url := "https://x/y", token := "" } "https://x/y" respA (.str "KEY1")
    dupErr (by decide) rfl (by decide) (by decide) rfl (by decide) rfl (by decide) rfl
  rw [h]
  decide

/-- C10: every non-empty extraction result equals its own trim, and a
successful pull returns a non-empty, already-trimmed card key, having
recorded exactly one fetch followed by one successful insert of that very
card key under the given product id. -/
theorem pull_success_trimmed_inserted :
    (∀ p : Payload, jsTrim (extractCardKey p) = extractCardKey p)
    ∧ (∀ (env : Env) (pid : String) (o : PullOutcome),
      (pullRun env pid).1 = .ok o → o.ok = true →
      ∃ ck u hd, o = { ok := true, cardKey := some ck }
        ∧ ck ≠ "" ∧ jsTrim ck = ck
        ∧ (pullRun env pid).2 = [.fetchCall u hd, .insertCall pid ck]
        ∧ env.insert pid ck = .ok ()) := by
  refine ⟨extractCardKey_trimmed, ?_⟩
  intro env pid o h ho
  rcases pullRun_inversion env pid with
    ⟨e, hG, hP⟩ | ⟨cfg, hG, hE, hP⟩ | ⟨cfg, hG, hE, hU, hP⟩ | ⟨cfg, e, hG, hE, hU, hR, hP⟩ |
    ⟨cfg, u, e, hG, hE, hU, hR, hFe, hP⟩ | ⟨cfg, u, resp, hG, hE, hU, hR, hFo, hS, hP⟩ |
    ⟨cfg, u, resp, e, hG, hE, hU, hR, hFo, hS, hDe, hP⟩ |
    ⟨cfg, u, resp, payload, hG, hE, hU, hR, hFo, hS, hDo, hX, hP⟩ |
    ⟨cfg, u, resp, payload, e, hG, hE, hU, hR, hFo, hS, hDo, hX, hI, hIU, hP⟩ |
    ⟨cfg, u, resp, payload, e, hG, hE, hU, hR, hFo, hS, hDo, hX, hI, hIU, hP⟩ |
    ⟨cfg, u, resp, payload, hG, hE, hU, hR, hFo, hS, hDo, hX, hI, hP⟩
  · rw [hP] at h; simp at h
  · rw [hP] at h; simp at h; subst h; simp at ho
  · rw [hP] at h; simp at h; subst h; simp at ho
  · rw [hP] at h; simp at h; subst h; simp at ho
  · rw [hP] at h; simp at h
  · rw [hP] at h; simp at h; subst h; simp at ho
  · rw [hP] at h; simp at h
  · rw [hP] at h; simp at h; subst h; simp at ho
  · rw [hP] at h; simp at h; subst h; simp at ho
  · rw [hP] at h; simp at h; subst h; simp at ho
  · rw [hP] at h; simp at h; subst h
    exact ⟨extractCardKey payload, u, requestHeaders cfg.token, rfl, hX,
      extractCardKey_trimmed payload, by rw [hP], hI⟩

/-- C10 witness: the healthy concrete environment returns the trimmed card
key `KEY1` and records its insert under product `p1`. -/
theorem pull_success_trimmed_inserted_witness :
    ∃ ck u hd,
      ({ ok := true, cardKey := some "KEY1" } : PullOutcome) = { ok := true, cardKey := some ck }
      ∧ ck ≠ "" ∧ jsTrim ck = ck
      ∧ (pullRun envOkA "p1").2 = [.fetchCall u hd, .insertCall "p1" ck]
      ∧ envOkA.insert "p1" ck = .ok () :=
  pull_success_trimmed_inserted.2 envOkA "p1" { ok := true, cardKey := some "KEY1" }
    (by decide) rfl

/-- C7 witness: the three-key characterization instantiated at the concrete
store enabling product `p1`. -/
theorem getProductCardApiConfig_reads_three_keys_witness :
    ∃ cfg, getProductCardApiConfig (envWithStore storeA envOkA) "p1" = .ok cfg
      ∧ (cfg.enabled = true ↔ storeA ("cards_api_enabled_" ++ "p1") = some "true")
      ∧ cfg.url = jsTrim ((storeA ("cards_api_url_" ++ "p1")).getD "")
      ∧ cfg.token = jsTrim ((storeA ("cards_api_token_" ++ "p1")).getD "")
      ∧ (storeA ("cards_api_enabled_" ++ "p1") = none → cfg.enabled = false)
      ∧ (storeA ("cards_api_url_" ++ "p1") = none → cfg.url = "")
      ∧ (storeA ("cards_api_token_" ++ "p1") = none → cfg.token = "")
      ∧ (∀ (env2 : Env) (store2 : Store),
          store2 ("cards_api_enabled_" ++ "p1") = storeA ("cards_api_enabled_" ++ "p1") →
          store2 ("cards_api_url_" ++ "p1") = storeA ("cards_api_url_" ++ "p1") →
          store2 ("cards_api_token_" ++ "p1") = storeA ("cards_api_token_" ++ "p1") →
          getProductCardApiConfig (envWithStore store2 env2) "p1" = .ok cfg) :=
  getProductCardApiConfig_reads_three_keys envOkA storeA "p1"

/-- C9 witness: the save / resolve round trip instantiated at a concrete
store and config with untrimmed url and token. -/
theorem save_then_get_roundtrip_witness :
    getProductCardApiConfig
        (envWithStore
          (saveProductCardApiConfig "p1"
            { enabled := true, url := " https://api.example/card ", token := " tok " }
            (fun _ => none))
          envOkA) "p1"
      = .ok { enabled := true, url := jsTrim " https://api.example/card ",
              token := jsTrim " tok " }
    ∧ saveProductCardApiConfig "p1"
        { enabled := true, url := " https://api.example/card ", token := " tok " }
        (fun _ => none) (keyOf "p1" "enabled") = some (if true then "true" else "false")
    ∧ saveProductCardApiConfig "p1"
        { enabled := true, url := " https://api.example/card ", token := " tok " }
        (fun _ => none) (keyOf "p1" "url") = some (jsTrim " https://api.example/card ")
    ∧ saveProductCardApiConfig "p1"
        { enabled := true, url := " https://api.example/card ", token := " tok " }
        (fun _ => none) (keyOf "p1" "token") = some (jsTrim " tok ") :=
  save_then_get_roundtrip envOkA (fun _ => none) "p1"
    { enabled := true, url := " https://api.example/card ", token := " tok " }

end LdcShop
